import Mathlib

/-!
# Shallow embedding of the simple_budget service

This development embeds the budget-sharing and CRUD logic of the
`simple_budget` FastAPI application (files `app/controllers/budgets.py`,
`app/controllers/budget.py`, `app/dependencies.py`, `app/models/budget.py`)
and proves properties of it.

Modelling conventions:
* The relational store is a `DB` record of lists of rows, in insertion
  order; SQLAlchemy `query(...).filter(...).first()` becomes `List.find?`
  with the same predicate, joins become existential row checks.
* `datetime` values are abstract `Int` timestamps (seconds); `timedelta(days=7)`
  is the constant `seven_days`.  `datetime.now(timezone.utc)` is passed in as a
  `now : Int` argument.
* `secrets.token_urlsafe(48)` is nondeterministic, so the generated token is
  passed in as an argument.
* Autoincrement primary keys are modelled by `fresh_id` (one more than the
  maximum id in the table); no claim depends on the actual key values.
* `HTTPException` becomes `ApiError` carrying the numeric status code and the
  detail string; an endpoint returns `Except ApiError output × DB`, the second
  component being the store after the request (so that commits that happen
  before a raise are observable, exactly as in the source).
* Python `str.lower()` is modelled by `py_lower` (ASCII case folding via
  `Char.toLower`, which is what the claims about case-insensitivity
  quantify over; Python's full-Unicode folding agrees on the ASCII range).
-/

namespace SimpleBudget

/-- Row of table `budgets` (`app/models/budget.py`, class `Budget`). -/
structure Budget where
  id : Int
  name : String
  owner_id : String
  deriving DecidableEq, Repr

/-- Row of table `budget_members` (`app/models/budget.py`, class `BudgetMember`). -/
structure BudgetMember where
  id : Int
  budget_id : Int
  user_id : String
  role : String
  deriving DecidableEq, Repr

/-- Row of table `budget_invitations` (`app/models/budget.py`, class `BudgetInvitation`). -/
structure BudgetInvitation where
  id : Int
  budget_id : Int
  inviter_id : String
  invitee_email : String
  token : String
  role : String
  status : String
  expires_at : Int
  accepted_at : Option Int
  deriving DecidableEq, Repr

/-- Row of table `categories` (`app/models/budget.py`, class `Category`).
The monetary amount column is named `budget` in SQL but `budget_amount` on the
model; amounts are abstracted to `Int` (no claim computes with them). -/
structure Category where
  id : Int
  budget_id : Int
  name : String
  budget_amount : Int
  year : Int
  month : Int
  deriving DecidableEq, Repr

/-- Row of table `subcategories` (`app/models/budget.py`, class `Subcategory`). -/
structure Subcategory where
  id : Int
  name : String
  allotted : Int
  category_id : Int
  deriving DecidableEq, Repr

/-- Row of table `transactions` (`app/models/budget.py`, class `Transaction`). -/
structure Transaction where
  id : Int
  description : String
  amount : Int
  date : Int
  subcategory_id : Int
  deriving DecidableEq, Repr

/-- The relational store: one list of rows per table, in insertion order. -/
structure DB where
  budgets : List Budget
  members : List BudgetMember
  invitations : List BudgetInvitation
  categories : List Category
  subcategories : List Subcategory
  transactions : List Transaction
  deriving DecidableEq, Repr

/-- `HTTPException(status_code, detail)`. -/
structure ApiError where
  status : Nat
  detail : String
  deriving DecidableEq, Repr

/-- Autoincrement primary key: one more than the largest id present. -/
def fresh_id (ids : List Int) : Int :=
  ids.foldr max 0 + 1

/-- `timedelta(days=7)` in seconds. -/
def seven_days : Int := 7 * 86400

/-- Python `str.lower()`: ASCII case folding over the characters.  (Python
folds full Unicode; the two agree on the ASCII range, which is all the
claims quantify over.) -/
def py_lower (s : String) : String :=
  String.mk (s.toList.map Char.toLower)

/-- The admin-role membership query repeated at every admin-gated endpoint of
`app/controllers/budgets.py`:
`db.query(BudgetMember).filter(budget_id == …, user_id == …, role.in_(["admin","owner"])).first()`. -/
def admin_member (db : DB) (budget_id : Int) (user : String) : Option BudgetMember :=
  db.members.find? fun m =>
    m.budget_id == budget_id && m.user_id == user &&
      (m.role == "admin" || m.role == "owner")

/-- `PUT /budgets/{budget_id}` (`budgets.py`, `update_budget`). -/
def update_budget (db : DB) (current_user : String) (budget_id : Int)
    (new_name : Option String) : Except ApiError Budget × DB :=
  match db.budgets.find? (fun b => b.id == budget_id) with
  | none => (.error ⟨404, "Budget not found"⟩, db)
  | some budget =>
    if (admin_member db budget_id current_user).isNone
        && current_user != budget.owner_id then
      (.error ⟨403, "Only admins can update budgets"⟩, db)
    else
      match new_name with
      | none => (.ok budget, db)
      | some n =>
        (.ok { budget with name := n },
         { db with budgets := db.budgets.map fun b =>
             if b.id == budget_id then { b with name := n } else b })

/-- `DELETE /budgets/{budget_id}` (`budgets.py`, `delete_budget`).  The ORM
cascade (`cascade="all, delete-orphan"` on members/categories, `backref` on
invitations, and the chain down to transactions) is spelled out as filters. -/
def delete_budget (db : DB) (current_user : String) (budget_id : Int) :
    Except ApiError String × DB :=
  match db.budgets.find? (fun b => b.id == budget_id) with
  | none => (.error ⟨404, "Budget not found"⟩, db)
  | some budget =>
    if current_user != budget.owner_id then
      (.error ⟨403, "Only the budget owner can delete it"⟩, db)
    else
      (.ok ("Budget '" ++ budget.name ++ "' deleted successfully"),
       { budgets := db.budgets.filter fun b => !(b.id == budget_id)
         members := db.members.filter fun m => !(m.budget_id == budget_id)
         invitations := db.invitations.filter fun i => !(i.budget_id == budget_id)
         categories := db.categories.filter fun c => !(c.budget_id == budget_id)
         subcategories := db.subcategories.filter fun s =>
           !(db.categories.any fun c => c.budget_id == budget_id && c.id == s.category_id)
         transactions := db.transactions.filter fun t =>
           !(db.subcategories.any fun s => s.id == t.subcategory_id &&
              (db.categories.any fun c => c.budget_id == budget_id && c.id == s.category_id)) })

/-- `POST /budgets/{budget_id}/members` (`budgets.py`, `add_member`).
The endpoint takes only the user id to add — there is no role parameter;
the inserted row is built with `role="editor"`. -/
def add_member (db : DB) (current_user : String) (budget_id : Int)
    (user_id_to_add : String) : Except ApiError BudgetMember × DB :=
  match db.budgets.find? (fun b => b.id == budget_id) with
  | none => (.error ⟨404, "Budget not found"⟩, db)
  | some budget =>
    if (admin_member db budget_id current_user).isNone
        && current_user != budget.owner_id then
      (.error ⟨403, "Only admins can add members"⟩, db)
    else
      match db.members.find? (fun m =>
          m.budget_id == budget_id && m.user_id == user_id_to_add) with
      | some _ => (.error ⟨400, "User is already a member of this budget"⟩, db)
      | none =>
        let new_member : BudgetMember :=
          { id := fresh_id (db.members.map (·.id))
            budget_id := budget_id
            user_id := user_id_to_add
            role := "editor" }
        (.ok new_member, { db with members := db.members ++ [new_member] })

/-- The "existing pending invitation" predicate of `create_invitation`
(`budgets.py`, step 3): same budget, same lower-cased email, status
`pending`, `expires_at > now`. -/
def pending_unexpired (budget_id : Int) (email_lc : String) (now : Int)
    (i : BudgetInvitation) : Bool :=
  i.budget_id == budget_id && i.invitee_email == email_lc &&
    i.status == "pending" && now < i.expires_at

/-- `POST /budgets/{budget_id}/invitations` (`budgets.py`, `create_invitation`). -/
def create_invitation (db : DB) (current_user : String) (budget_id : Int)
    (email role token : String) (now : Int) :
    Except ApiError BudgetInvitation × DB :=
  match db.budgets.find? (fun b => b.id == budget_id) with
  | none => (.error ⟨404, "Budget not found"⟩, db)
  | some budget =>
    if (admin_member db budget_id current_user).isNone
        && current_user != budget.owner_id then
      (.error ⟨403, "Only admins can send invitations"⟩, db)
    else
      match db.invitations.find? (pending_unexpired budget_id (py_lower email) now) with
      | some _ =>
        (.error ⟨400, "An active invitation already exists for this email"⟩, db)
      | none =>
        let invitation : BudgetInvitation :=
          { id := fresh_id (db.invitations.map (·.id))
            budget_id := budget_id
            inviter_id := current_user
            invitee_email := (py_lower email)
            token := token
            role := role
            status := "pending"
            expires_at := now + seven_days
            accepted_at := none }
        (.ok invitation, { db with invitations := db.invitations ++ [invitation] })

/-- `GET /budgets/{budget_id}/invitations` (`budgets.py`, `list_invitations`).
The `order_by(created_at.desc())` clause is dropped: `created_at` is not
modelled and no claim concerns ordering. -/
def list_invitations (db : DB) (current_user : String) (budget_id : Int)
    (status_filter : Option String) :
    Except ApiError (List BudgetInvitation) × DB :=
  match db.budgets.find? (fun b => b.id == budget_id) with
  | none => (.error ⟨404, "Budget not found"⟩, db)
  | some budget =>
    if (admin_member db budget_id current_user).isNone
        && current_user != budget.owner_id then
      (.error ⟨403, "Only admins can view invitations"⟩, db)
    else
      let q := db.invitations.filter fun i => i.budget_id == budget_id
      match status_filter with
      | none => (.ok q, db)
      | some s => (.ok (q.filter fun i => i.status == s), db)

/-- `DELETE /invitations/{invitation_id}` (`budgets.py`, `cancel_invitation`).
The source reads `budget.owner_id` assuming the foreign key holds; a store
violating it would crash there, modelled as a 500. -/
def cancel_invitation (db : DB) (current_user : String) (invitation_id : Int) :
    Except ApiError String × DB :=
  match db.invitations.find? (fun i => i.id == invitation_id) with
  | none => (.error ⟨404, "Invitation not found"⟩, db)
  | some invitation =>
    match db.budgets.find? (fun b => b.id == invitation.budget_id) with
    | none => (.error ⟨500, "Internal Server Error"⟩, db)
    | some budget =>
      if (admin_member db invitation.budget_id current_user).isNone
          && current_user != budget.owner_id then
        (.error ⟨403, "Only admins can cancel invitations"⟩, db)
      else if invitation.status != "pending" then
        (.error ⟨400, "Can only cancel pending invitations"⟩, db)
      else
        (.ok "Invitation cancelled",
         { db with invitations := db.invitations.map fun i =>
             if i.id == invitation_id then { i with status := "cancelled" } else i })

/-- Modelled from the spec: `get_user_email` is imported from `app/auth.py`
by the invitations controller but is absent from the source tree.  Per
§4.1/§4.3 of the spec it extracts the verified email claim of the bearer
token, normalized so that the accept-time exact-string comparison is
case-insensitive — i.e. the claim is returned lower-cased. -/
def get_user_email (email_claim : String) : String := py_lower email_claim

/-- `POST /budgets/invitations/accept/{token}` (`budgets.py`,
`accept_invitation`).  Note that the expired flip (step 4) and the
already-member consumption (step 6) each commit before raising, so the
returned store differs from the input store on those error paths. -/
def accept_invitation (db : DB) (current_user user_email token : String)
    (now : Int) : Except ApiError BudgetMember × DB :=
  match db.invitations.find? (fun i => i.token == token) with
  | none => (.error ⟨404, "Invalid invitation token"⟩, db)
  | some invitation =>
    if invitation.status == "accepted" then
      (.error ⟨400, "Invitation already accepted"⟩, db)
    else if invitation.status == "cancelled" then
      (.error ⟨400, "Invitation has been cancelled"⟩, db)
    else if invitation.expires_at < now then
      (.error ⟨410, "Invitation has expired"⟩,
       { db with invitations := db.invitations.map fun i =>
           if i.token == token then { i with status := "expired" } else i })
    else if user_email != invitation.invitee_email then
      (.error ⟨403, "This invitation was sent to a different email address"⟩, db)
    else
      match db.members.find? (fun m =>
          m.budget_id == invitation.budget_id && m.user_id == current_user) with
      | some _ =>
        (.error ⟨400, "You are already a member of this budget"⟩,
         { db with invitations := db.invitations.map fun i =>
             if i.token == token then
               { i with status := "accepted", accepted_at := some now }
             else i })
      | none =>
        let new_member : BudgetMember :=
          { id := fresh_id (db.members.map (·.id))
            budget_id := invitation.budget_id
            user_id := current_user
            role := invitation.role }
        (.ok new_member,
         { db with
             members := db.members ++ [new_member]
             invitations := db.invitations.map fun i =>
               if i.token == token then
                 { i with status := "accepted", accepted_at := some now }
               else i })

/-- `GET /budgets/invitations/validate/{token}` (`budgets.py`,
`validate_invitation`).  Read-only: every branch returns the store
unchanged.  The success payload is (budget name, invitee email, role,
expiry). -/
def validate_invitation (db : DB) (token : String) (now : Int) :
    Except ApiError (String × String × String × Int) × DB :=
  match db.invitations.find? (fun i => i.token == token) with
  | none => (.error ⟨404, "Invalid invitation token"⟩, db)
  | some invitation =>
    if invitation.status != "pending" then
      (.error ⟨400, "Invitation is " ++ invitation.status⟩, db)
    else if invitation.expires_at < now then
      (.error ⟨410, "Invitation has expired"⟩, db)
    else
      match db.budgets.find? (fun b => b.id == invitation.budget_id) with
      | none => (.error ⟨500, "Internal Server Error"⟩, db)
      | some budget =>
        (.ok (budget.name, invitation.invitee_email, invitation.role,
              invitation.expires_at), db)

/-- Python's `int(str)` conversion, modelled as an optional sign followed by
one or more decimal digits; `none` is `ValueError`.  (Python additionally
strips surrounding whitespace and allows digit-group underscores; no claim
depends on those inputs.) -/
def py_int (s : String) : Option Int :=
  let digitsVal : List Char → Int := fun cs =>
    cs.foldl (fun n c => n * 10 + ((c.toNat : Int) - 48)) 0
  match s.toList with
  | [] => none
  | '-' :: cs =>
    if !cs.isEmpty && cs.all Char.isDigit then some (-(digitsVal cs)) else none
  | '+' :: cs =>
    if !cs.isEmpty && cs.all Char.isDigit then some (digitsVal cs) else none
  | cs => if cs.all Char.isDigit then some (digitsVal cs) else none

/-- `get_current_budget` (`app/dependencies.py`): resolves the
`X-Budget-ID` header.  Python's falsiness test `if not x_budget_id` treats
a missing header and an empty string alike; `int(...)` is modelled by
`py_int`.  Read-only, so only the `Except` is returned. -/
def get_current_budget (db : DB) (x_budget_id : Option String)
    (current_user : String) : Except ApiError Int :=
  match x_budget_id with
  | none => .error ⟨400, "X-Budget-ID header required"⟩
  | some s =>
    if s == "" then .error ⟨400, "X-Budget-ID header required"⟩
    else
      match py_int s with
      | none => .error ⟨400, "Invalid X-Budget-ID format"⟩
      | some budget_id =>
        match db.members.find? (fun m =>
            m.budget_id == budget_id && m.user_id == current_user) with
        | none => .error ⟨403, "Access to this budget denied"⟩
        | some _ => .ok budget_id

/-- The subcategory → category → budget join used by the subcategory and
transaction endpoints of `app/controllers/budget.py`:
`query(Subcategory).join(Category).filter(…, Category.budget_id == budget_id)`. -/
def sub_in_budget (db : DB) (s : Subcategory) (budget_id : Int) : Bool :=
  db.categories.any fun c => c.id == s.category_id && c.budget_id == budget_id

/-- The transaction → subcategory → category → budget join of
`update_transaction` / `delete_transaction` (`budget.py`). -/
def txn_in_budget (db : DB) (t : Transaction) (budget_id : Int) : Bool :=
  db.subcategories.any fun s => s.id == t.subcategory_id && sub_in_budget db s budget_id

/-- `POST /categories/` (`budget.py`, `create_category`): inserts a category
under the context budget; the request's `budget` field lands in the
`budget_amount` column.  No failure path. -/
def create_category (db : DB) (budget_id : Int) (name : String)
    (budget_val year month : Int) : Except ApiError Category × DB :=
  let c : Category :=
    { id := fresh_id (db.categories.map (·.id))
      budget_id := budget_id
      name := name
      budget_amount := budget_val
      year := year
      month := month }
  (.ok c, { db with categories := db.categories ++ [c] })

/-- Modelled from the spec: `app.services.budget.create_subcategory` is
imported by `app/controllers/budget.py` but `app/services/` is absent from
the source tree.  Per §4.4 it is plain CRUD: insert the subcategory row. -/
def service_create_subcategory (db : DB) (category_id : Int) (name : String)
    (allotted : Int) : Subcategory × DB :=
  let s : Subcategory :=
    { id := fresh_id (db.subcategories.map (·.id))
      name := name
      allotted := allotted
      category_id := category_id }
  (s, { db with subcategories := db.subcategories ++ [s] })

/-- Modelled from the spec: `app.services.budget.create_transaction` is
imported by `app/controllers/budget.py` but `app/services/` is absent from
the source tree.  Per §4.4 it is plain CRUD: insert the transaction row. -/
def service_create_transaction (db : DB) (subcategory_id : Int)
    (description : String) (amount date : Int) : Transaction × DB :=
  let t : Transaction :=
    { id := fresh_id (db.transactions.map (·.id))
      description := description
      amount := amount
      date := date
      subcategory_id := subcategory_id }
  (t, { db with transactions := db.transactions ++ [t] })

/-- `POST /subcategories/` (`budget.py`, `create_subcategory`): verifies the
parent category belongs to the context budget, else 404. -/
def create_subcategory (db : DB) (budget_id category_id : Int) (name : String)
    (allotted : Int) : Except ApiError Subcategory × DB :=
  match db.categories.find? (fun c =>
      c.id == category_id && c.budget_id == budget_id) with
  | none => (.error ⟨404, "Category not found"⟩, db)
  | some _ =>
    let r := service_create_subcategory db category_id name allotted
    (.ok r.1, r.2)

/-- `POST /transactions/` (`budget.py`, `create_transaction`): verifies the
parent subcategory's chain reaches the context budget, else 404. -/
def create_transaction (db : DB) (budget_id subcategory_id : Int)
    (description : String) (amount date : Int) :
    Except ApiError Transaction × DB :=
  match db.subcategories.find? (fun s =>
      s.id == subcategory_id && sub_in_budget db s budget_id) with
  | none => (.error ⟨404, "Subcategory not found"⟩, db)
  | some _ =>
    let r := service_create_transaction db subcategory_id description amount date
    (.ok r.1, r.2)

/-- `PUT /categories/{category_id}` (`budget.py`, `update_category`). -/
def update_category (db : DB) (budget_id category_id : Int)
    (new_budget : Option Int) (new_name : Option String) :
    Except ApiError Category × DB :=
  match db.categories.find? (fun c =>
      c.id == category_id && c.budget_id == budget_id) with
  | none => (.error ⟨404, "Category not found"⟩, db)
  | some category =>
    let upd : Category → Category := fun c =>
      let c := match new_budget with
        | none => c
        | some v => { c with budget_amount := v }
      match new_name with
      | none => c
      | some n => { c with name := n }
    (.ok (upd category),
     { db with categories := db.categories.map fun c =>
         if c.id == category_id && c.budget_id == budget_id then upd c else c })

/-- `DELETE /categories/{category_id}` (`budget.py`, `delete_category`):
explicitly deletes the transactions of each subcategory, then the
subcategories, then the category. -/
def delete_category (db : DB) (budget_id category_id : Int) :
    Except ApiError String × DB :=
  match db.categories.find? (fun c =>
      c.id == category_id && c.budget_id == budget_id) with
  | none => (.error ⟨404, "Category not found"⟩, db)
  | some _ =>
    (.ok "success",
     { db with
         transactions := db.transactions.filter fun t =>
           !(db.subcategories.any fun s =>
               s.category_id == category_id && s.id == t.subcategory_id)
         subcategories := db.subcategories.filter fun s =>
           !(s.category_id == category_id)
         categories := db.categories.filter fun c => !(c.id == category_id) })

/-- `PUT /subcategories/{subcategory_id}` (`budget.py`, `update_subcategory`). -/
def update_subcategory (db : DB) (budget_id subcategory_id : Int)
    (new_allotted : Option Int) (new_name : Option String) :
    Except ApiError Subcategory × DB :=
  match db.subcategories.find? (fun s =>
      s.id == subcategory_id && sub_in_budget db s budget_id) with
  | none => (.error ⟨404, "Subcategory not found"⟩, db)
  | some subcategory =>
    let upd : Subcategory → Subcategory := fun s =>
      let s := match new_allotted with
        | none => s
        | some v => { s with allotted := v }
      match new_name with
      | none => s
      | some n => { s with name := n }
    (.ok (upd subcategory),
     { db with subcategories := db.subcategories.map fun s =>
         if s.id == subcategory_id && sub_in_budget db s budget_id then upd s else s })

/-- `DELETE /subcategories/{subcategory_id}` (`budget.py`,
`delete_subcategory`): deletes the subcategory's transactions, then the
subcategory. -/
def delete_subcategory (db : DB) (budget_id subcategory_id : Int) :
    Except ApiError String × DB :=
  match db.subcategories.find? (fun s =>
      s.id == subcategory_id && sub_in_budget db s budget_id) with
  | none => (.error ⟨404, "Subcategory not found"⟩, db)
  | some _ =>
    (.ok "success",
     { db with
         transactions := db.transactions.filter fun t =>
           !(t.subcategory_id == subcategory_id)
         subcategories := db.subcategories.filter fun s =>
           !(s.id == subcategory_id) })

/-- `PUT /transactions/{transaction_id}` (`budget.py`, `update_transaction`). -/
def update_transaction (db : DB) (budget_id transaction_id : Int)
    (new_description : Option String) (new_amount new_date : Option Int) :
    Except ApiError Transaction × DB :=
  match db.transactions.find? (fun t =>
      t.id == transaction_id && txn_in_budget db t budget_id) with
  | none => (.error ⟨404, "Transaction not found"⟩, db)
  | some txn =>
    let upd : Transaction → Transaction := fun t =>
      let t := match new_description with
        | none => t
        | some d => { t with description := d }
      let t := match new_amount with
        | none => t
        | some a => { t with amount := a }
      match new_date with
      | none => t
      | some d => { t with date := d }
    (.ok (upd txn),
     { db with transactions := db.transactions.map fun t =>
         if t.id == transaction_id && txn_in_budget db t budget_id then upd t else t })

/-- `DELETE /transactions/{transaction_id}` (`budget.py`, `delete_transaction`). -/
def delete_transaction (db : DB) (budget_id transaction_id : Int) :
    Except ApiError String × DB :=
  match db.transactions.find? (fun t =>
      t.id == transaction_id && txn_in_budget db t budget_id) with
  | none => (.error ⟨404, "Transaction not found"⟩, db)
  | some _ =>
    (.ok "success",
     { db with transactions := db.transactions.filter fun t =>
         !(t.id == transaction_id) })

instance {ε α : Type} [DecidableEq ε] [DecidableEq α] :
    DecidableEq (Except ε α) := fun a b =>
  match a, b with
  | .ok x, .ok y =>
    if h : x = y then .isTrue (by rw [h]) else
      .isFalse (fun he => h (Except.ok.inj he))
  | .error x, .error y =>
    if h : x = y then .isTrue (by rw [h]) else
      .isFalse (fun he => h (Except.error.inj he))
  | .ok _, .error _ => .isFalse (fun he => Except.noConfusion he)
  | .error _, .ok _ => .isFalse (fun he => Except.noConfusion he)

/-- The (budget, invitee_email) uniqueness invariant of spec §3: at most one
pending, non-expired invitation per pair at any time. -/
def at_most_one_active (db : DB) (now : Int) : Prop :=
  ∀ bid email_lc, db.invitations.countP (pending_unexpired bid email_lc now) ≤ 1

/-- Whether an endpoint outcome is a 403 Forbidden error. -/
def isForbidden {α : Type} (r : Except ApiError α) : Bool :=
  match r with
  | .error e => e.status == 403
  | .ok _ => false

/-- A one-budget store whose owner `alice` has no `BudgetMember` row at all,
with one pending invitation; used to exercise the owner-bypass paths. -/
def dbOwnerNoRow : DB :=
  { budgets := [{ id := 1, name := "Family", owner_id := "alice" }]
    members := []
    invitations := [{ id := 1, budget_id := 1, inviter_id := "alice",
                      invitee_email := "bob@x.com", token := "tok",
                      role := "editor", status := "pending",
                      expires_at := 100, accepted_at := none }]
    categories := []
    subcategories := []
    transactions := [] }

/-- A store where `bob` is already an editor on budget 1 and a pending
invitation addressed to him is outstanding. -/
def dbAlreadyMember : DB :=
  { budgets := [{ id := 1, name := "Family", owner_id := "alice" }]
    members := [{ id := 1, budget_id := 1, user_id := "alice", role := "admin" },
                { id := 2, budget_id := 1, user_id := "bob", role := "editor" }]
    invitations := [{ id := 1, budget_id := 1, inviter_id := "alice",
                      invitee_email := "bob@x.com", token := "tok",
                      role := "editor", status := "pending",
                      expires_at := 100, accepted_at := none }]
    categories := []
    subcategories := []
    transactions := [] }

/-- A store with a pending invitation whose expiry has already passed
(`expires_at = 5`). -/
def dbExpired : DB :=
  { budgets := [{ id := 1, name := "Family", owner_id := "alice" }]
    members := [{ id := 1, budget_id := 1, user_id := "alice", role := "admin" }]
    invitations := [{ id := 1, budget_id := 1, inviter_id := "alice",
                      invitee_email := "bob@x.com", token := "tok",
                      role := "editor", status := "pending",
                      expires_at := 5, accepted_at := none }]
    categories := []
    subcategories := []
    transactions := [] }

/-- A two-budget store with a category/subcategory/transaction chain that
terminates at budget 2, used to exercise the cross-budget 404 paths with
budget 1 as the caller's context. -/
def dbCross : DB :=
  { budgets := [{ id := 1, name := "Mine", owner_id := "alice" },
                { id := 2, name := "Theirs", owner_id := "carol" }]
    members := [{ id := 1, budget_id := 1, user_id := "alice", role := "admin" },
                { id := 2, budget_id := 2, user_id := "carol", role := "admin" }]
    invitations := []
    categories := [{ id := 10, budget_id := 2, name := "Groceries",
                     budget_amount := 500, year := 2024, month := 2 }]
    subcategories := [{ id := 20, name := "Fast Food", allotted := 100,
                        category_id := 10 }]
    transactions := [{ id := 30, description := "Lunch", amount := 12,
                       date := 0, subcategory_id := 20 }] }

theorem find?_map_if {α : Type} (p : α → Bool) (g : α → α)
    (hg : ∀ x, p (g x) = p x) :
    ∀ (l : List α) (a : α), l.find? p = some a →
      (l.map fun x => if p x then g x else x).find? p = some (g a) := by
  intro l
  induction l with
  | nil => intro a h; simp at h
  | cons x xs ih =>
    intro a h
    cases hx : p x with
    | true =>
      rw [List.find?_cons_of_pos _ hx] at h
      injection h with h
      subst h
      simp only [List.map_cons, hx, if_true]
      exact List.find?_cons_of_pos _ (by rw [hg]; exact hx)
    | false =>
      have hx' : ¬ p x = true := by simp [hx]
      rw [List.find?_cons_of_neg _ hx'] at h
      simp only [List.map_cons, hx, Bool.false_eq_true, if_false]
      rw [List.find?_cons_of_neg _ hx']
      exact ih a h

/-- C1: every admin-gated budget operation (update budget, add member,
create invitation, list invitations, cancel invitation) lets a caller whose
user id equals the budget's `owner_id` pass the admin-level check: the
operation never fails with 403 Forbidden, even when no `BudgetMember` row
exists for that caller on that budget (no membership hypothesis is needed
at all). -/
theorem owner_passes_admin_gates
    (db : DB) (u : String) (bid : Int) (b : Budget)
    (hb : db.budgets.find? (fun x => x.id == bid) = some b)
    (hu : u = b.owner_id)
    (new_name : Option String) (uadd email role token : String) (now : Int)
    (sf : Option String) (iid : Int) (inv : BudgetInvitation)
    (hi : db.invitations.find? (fun i => i.id == iid) = some inv)
    (hib : inv.budget_id = bid) :
    isForbidden (update_budget db u bid new_name).1 = false ∧
    isForbidden (add_member db u bid uadd).1 = false ∧
    isForbidden (create_invitation db u bid email role token now).1 = false ∧
    isForbidden (list_invitations db u bid sf).1 = false ∧
    isForbidden (cancel_invitation db u iid).1 = false := by
  subst hu
  refine ⟨?_, ?_, ?_, ?_, ?_⟩
  · simp only [update_budget, hb, bne_self_eq_false, Bool.and_false,
      Bool.false_eq_true, if_false]
    cases new_name <;> rfl
  · simp only [add_member, hb, bne_self_eq_false, Bool.and_false,
      Bool.false_eq_true, if_false]
    cases db.members.find? (fun m => m.budget_id == bid && m.user_id == uadd) <;> rfl
  · simp only [create_invitation, hb, bne_self_eq_false, Bool.and_false,
      Bool.false_eq_true, if_false]
    cases db.invitations.find? (pending_unexpired bid (py_lower email) now) <;> rfl
  · simp only [list_invitations, hb, bne_self_eq_false, Bool.and_false,
      Bool.false_eq_true, if_false]
    cases sf <;> rfl
  · simp only [cancel_invitation, hi, hib, hb, bne_self_eq_false, Bool.and_false,
      Bool.false_eq_true, if_false]
    by_cases hs : (inv.status != "pending") = true <;> simp [hs, isForbidden]

/-- Witness for C1 at a concrete store whose owner has no membership row. -/
theorem owner_passes_admin_gates_witness :
    isForbidden (update_budget dbOwnerNoRow "alice" 1 (some "Home")).1 = false ∧
    isForbidden (add_member dbOwnerNoRow "alice" 1 "bob").1 = false ∧
    isForbidden (create_invitation dbOwnerNoRow "alice" 1 "carol@x.com" "editor" "tk2" 0).1 = false ∧
    isForbidden (list_invitations dbOwnerNoRow "alice" 1 none).1 = false ∧
    isForbidden (cancel_invitation dbOwnerNoRow "alice" 1).1 = false :=
  owner_passes_admin_gates dbOwnerNoRow "alice" 1
    { id := 1, name := "Family", owner_id := "alice" } (by decide) rfl
    (some "Home") "bob" "carol@x.com" "editor" "tk2" 0 none 1
    { id := 1, budget_id := 1, inviter_id := "alice",
      invitee_email := "bob@x.com", token := "tok", role := "editor",
      status := "pending", expires_at := 100, accepted_at := none }
    (by decide) rfl

/-- C2: budget-context resolution fails with 400 when the `X-Budget-ID`
header is absent, with 400 when it is not a well-formed integer, and with
403 when no `BudgetMember` row exists for (budget_id, caller) — strictly on
membership-row presence: even a caller who is the budget's `owner_id` but
has no row is denied. -/
theorem budget_context_strict_membership
    (db : DB) (u : String)
    (s2 : String) (hbad : py_int s2 = none) (hne2 : s2 ≠ "")
    (s : String) (n : Int) (hparse : py_int s = some n) (hne : s ≠ "")
    (b : Budget) (hown : db.budgets.find? (fun x => x.id == n) = some b)
    (hub : u = b.owner_id)
    (hnomem : db.members.find? (fun m => m.budget_id == n && m.user_id == u) = none) :
    get_current_budget db none u = .error ⟨400, "X-Budget-ID header required"⟩ ∧
    get_current_budget db (some s2) u = .error ⟨400, "Invalid X-Budget-ID format"⟩ ∧
    get_current_budget db (some s) u = .error ⟨403, "Access to this budget denied"⟩ := by
  refine ⟨rfl, ?_, ?_⟩
  · simp [get_current_budget, hbad, hne2]
  · simp [get_current_budget, hne, hparse, hnomem]

/-- Witness for C2: owner `alice` of budget 1, with no membership row, is
denied; header "abc" is malformed; a missing header is rejected. -/
theorem budget_context_strict_membership_witness :
    get_current_budget dbOwnerNoRow none "alice" = .error ⟨400, "X-Budget-ID header required"⟩ ∧
    get_current_budget dbOwnerNoRow (some "abc") "alice" = .error ⟨400, "Invalid X-Budget-ID format"⟩ ∧
    get_current_budget dbOwnerNoRow (some "1") "alice" = .error ⟨403, "Access to this budget denied"⟩ :=
  budget_context_strict_membership dbOwnerNoRow "alice" "abc" (by decide)
    (by decide) "1" 1 (by decide) (by decide)
    { id := 1, name := "Family", owner_id := "alice" } (by decide) rfl rfl

/-- C3: accepting a pending, non-expired invitation whose invitee email
matches the caller, when the caller already has a `BudgetMember` row for
that budget: the invitation is consumed (status set to `accepted`,
`accepted_at` set), no second member row is inserted, and the operation
still fails with the already-a-member Conflict error (status 400 in the
source's error taxonomy). -/
theorem accept_already_member_consumes_invitation
    (db : DB) (u email token : String) (now : Int)
    (inv : BudgetInvitation) (m : BudgetMember)
    (hfind : db.invitations.find? (fun i => i.token == token) = some inv)
    (hst : inv.status = "pending")
    (hexp : ¬ inv.expires_at < now)
    (hem : email = inv.invitee_email)
    (hmem : db.members.find? (fun x =>
        x.budget_id == inv.budget_id && x.user_id == u) = some m) :
    (accept_invitation db u email token now).1 =
      .error ⟨400, "You are already a member of this budget"⟩ ∧
    (accept_invitation db u email token now).2.members = db.members ∧
    (accept_invitation db u email token now).2.invitations.find?
        (fun i => i.token == token) =
      some { inv with status := "accepted", accepted_at := some now } := by
  subst hem
  have h1 : (inv.status == "accepted") = false := by simp [hst]
  have h2 : (inv.status == "cancelled") = false := by simp [hst]
  simp only [accept_invitation, hfind, h1, h2, hexp, hmem, bne_self_eq_false,
    Bool.false_eq_true, if_false, ite_false]
  refine ⟨trivial, trivial, ?_⟩
  exact find?_map_if (fun i => i.token == token)
    (fun i => { i with status := "accepted", accepted_at := some now })
    (fun x => rfl) db.invitations inv hfind

/-- Witness for C3: `bob` is already an editor of budget 1 and accepts the
pending invitation addressed to him. -/
theorem accept_already_member_consumes_invitation_witness :
    (accept_invitation dbAlreadyMember "bob" "bob@x.com" "tok" 10).1 =
      .error ⟨400, "You are already a member of this budget"⟩ ∧
    (accept_invitation dbAlreadyMember "bob" "bob@x.com" "tok" 10).2.members =
      dbAlreadyMember.members ∧
    (accept_invitation dbAlreadyMember "bob" "bob@x.com" "tok" 10).2.invitations.find?
        (fun i => i.token == "tok") =
      some { id := 1, budget_id := 1, inviter_id := "alice",
             invitee_email := "bob@x.com", token := "tok", role := "editor",
             status := "accepted", expires_at := 100, accepted_at := some 10 } :=
  accept_already_member_consumes_invitation dbAlreadyMember "bob" "bob@x.com"
    "tok" 10
    { id := 1, budget_id := 1, inviter_id := "alice",
      invitee_email := "bob@x.com", token := "tok", role := "editor",
      status := "pending", expires_at := 100, accepted_at := none }
    { id := 2, budget_id := 1, user_id := "bob", role := "editor" }
    (by decide) rfl (by decide) rfl (by decide)

/-- C4: an accept attempt on a pending invitation whose `expires_at` is
earlier than the current time persists the flip of the stored status to
`expired` and fails with 410 Gone; no membership is inserted. -/
theorem accept_expired_flips_status
    (db : DB) (u email token : String) (now : Int) (inv : BudgetInvitation)
    (hfind : db.invitations.find? (fun i => i.token == token) = some inv)
    (hst : inv.status = "pending")
    (hexp : inv.expires_at < now) :
    (accept_invitation db u email token now).1 =
      .error ⟨410, "Invitation has expired"⟩ ∧
    (accept_invitation db u email token now).2.members = db.members ∧
    (accept_invitation db u email token now).2.invitations.find?
        (fun i => i.token == token) =
      some { inv with status := "expired" } := by
  have h1 : (inv.status == "accepted") = false := by simp [hst]
  have h2 : (inv.status == "cancelled") = false := by simp [hst]
  simp only [accept_invitation, hfind, h1, h2, hexp, Bool.false_eq_true,
    if_false, ite_false, if_true, ite_true]
  refine ⟨trivial, trivial, ?_⟩
  exact find?_map_if (fun i => i.token == token)
    (fun i => { i with status := "expired" })
    (fun x => rfl) db.invitations inv hfind

/-- Witness for C4: the invitation of `dbExpired` (expiry 5) is accepted at
time 10. -/
theorem accept_expired_flips_status_witness :
    (accept_invitation dbExpired "bob" "bob@x.com" "tok" 10).1 =
      .error ⟨410, "Invitation has expired"⟩ ∧
    (accept_invitation dbExpired "bob" "bob@x.com" "tok" 10).2.members =
      dbExpired.members ∧
    (accept_invitation dbExpired "bob" "bob@x.com" "tok" 10).2.invitations.find?
        (fun i => i.token == "tok") =
      some { id := 1, budget_id := 1, inviter_id := "alice",
             invitee_email := "bob@x.com", token := "tok", role := "editor",
             status := "expired", expires_at := 5, accepted_at := none } :=
  accept_expired_flips_status dbExpired "bob" "bob@x.com" "tok" 10
    { id := 1, budget_id := 1, inviter_id := "alice",
      invitee_email := "bob@x.com", token := "tok", role := "editor",
      status := "pending", expires_at := 5, accepted_at := none }
    (by decide) rfl (by decide)

/-- C5 counterexample: on the store `dbExpired` (pending invitation, expiry 5),
`validate` at time 10 fails with Gone but returns the store unchanged — the
stored status is still `pending`, not `expired`; and a subsequent `cancel`
succeeds rather than failing with Gone. -/
theorem validate_does_not_persist_expiry :
    validate_invitation dbExpired "tok" 10 =
      (.error ⟨410, "Invitation has expired"⟩, dbExpired) ∧
    dbExpired.invitations.map (·.status) = ["pending"] ∧
    (cancel_invitation (validate_invitation dbExpired "tok" 10).2 "alice" 1).1 =
      .ok "Invitation cancelled" := by decide

/-- C5 amended: `validate` on a pending invitation whose `expires_at` has
passed fails with Gone but does not mutate the store; the stored flip to
`expired` is persisted only by an accept attempt; once flipped, a further
accept attempt fails with Gone while `validate` fails with the 400
"Invitation is expired" Conflict (not Gone). -/
theorem expired_pending_lazy_flip
    (db : DB) (u email token : String) (now now2 : Int) (inv : BudgetInvitation)
    (hfind : db.invitations.find? (fun i => i.token == token) = some inv)
    (hst : inv.status = "pending")
    (hexp : inv.expires_at < now) (hexp2 : inv.expires_at < now2) :
    validate_invitation db token now =
      (.error ⟨410, "Invitation has expired"⟩, db) ∧
    (accept_invitation db u email token now).1 =
      .error ⟨410, "Invitation has expired"⟩ ∧
    (accept_invitation db u email token now).2.invitations.find?
        (fun i => i.token == token) = some { inv with status := "expired" } ∧
    (accept_invitation (accept_invitation db u email token now).2 u email token now2).1 =
      .error ⟨410, "Invitation has expired"⟩ ∧
    (validate_invitation (accept_invitation db u email token now).2 token now2).1 =
      .error ⟨400, "Invitation is expired"⟩ := by
  have h1 : (inv.status == "accepted") = false := by simp [hst]
  have h2 : (inv.status == "cancelled") = false := by simp [hst]
  have hv : (inv.status != "pending") = false := by simp [hst]
  have hfind' : (accept_invitation db u email token now).2.invitations.find?
      (fun i => i.token == token) = some { inv with status := "expired" } := by
    simp only [accept_invitation, hfind, h1, h2, hexp, Bool.false_eq_true,
      if_false, ite_false, if_true, ite_true]
    exact find?_map_if (fun i => i.token == token)
      (fun i => { i with status := "expired" }) (fun x => rfl) db.invitations inv hfind
  have step : ∀ dbx : DB,
      dbx.invitations.find? (fun i => i.token == token) =
        some { inv with status := "expired" } →
      (accept_invitation dbx u email token now2).1 =
        .error ⟨410, "Invitation has expired"⟩ ∧
      (validate_invitation dbx token now2).1 =
        .error ⟨400, "Invitation is expired"⟩ := by
    intro dbx hfx
    constructor
    · simp only [accept_invitation, hfx]
      simp [hexp2]
    · simp only [validate_invitation, hfx]
      simp
  refine ⟨?_, ?_, hfind', (step _ hfind').1, (step _ hfind').2⟩
  · simp only [validate_invitation, hfind, hv, Bool.false_eq_true, if_false,
      ite_false, hexp, if_true, ite_true]
  · simp only [accept_invitation, hfind, h1, h2, hexp, Bool.false_eq_true,
      if_false, ite_false, if_true, ite_true]

/-- Witness for the amended C5 on `dbExpired` at times 10 and 20. -/
theorem expired_pending_lazy_flip_witness :
    validate_invitation dbExpired "tok" 10 =
      (.error ⟨410, "Invitation has expired"⟩, dbExpired) ∧
    (accept_invitation dbExpired "bob" "bob@x.com" "tok" 10).1 =
      .error ⟨410, "Invitation has expired"⟩ ∧
    (accept_invitation dbExpired "bob" "bob@x.com" "tok" 10).2.invitations.find?
        (fun i => i.token == "tok") =
      some { id := 1, budget_id := 1, inviter_id := "alice",
             invitee_email := "bob@x.com", token := "tok", role := "editor",
             status := "expired", expires_at := 5, accepted_at := none } ∧
    (accept_invitation (accept_invitation dbExpired "bob" "bob@x.com" "tok" 10).2
        "bob" "bob@x.com" "tok" 20).1 =
      .error ⟨410, "Invitation has expired"⟩ ∧
    (validate_invitation (accept_invitation dbExpired "bob" "bob@x.com" "tok" 10).2
        "tok" 20).1 =
      .error ⟨400, "Invitation is expired"⟩ :=
  expired_pending_lazy_flip dbExpired "bob" "bob@x.com" "tok" 10 20
    { id := 1, budget_id := 1, inviter_id := "alice",
      invitee_email := "bob@x.com", token := "tok", role := "editor",
      status := "pending", expires_at := 5, accepted_at := none }
    (by decide) rfl (by decide) (by decide)

/-- C6: the accept-time email check is case-insensitive: if the caller's
verified email claim equals the invitation's `invitee_email` up to ASCII
case (the stored value being lower-cased), the 403 email-mismatch error is
not raised; and `create_invitation` stores `invitee_email` lower-cased. -/
theorem accept_email_case_insensitive
    (db : DB) (u raw token : String) (now : Int) (inv : BudgetInvitation)
    (hfind : db.invitations.find? (fun i => i.token == token) = some inv)
    (hst : inv.status = "pending")
    (hexp : ¬ inv.expires_at < now)
    (hmatch : inv.invitee_email = (py_lower raw))
    (db2 : DB) (u2 : String) (bid2 : Int) (email2 role2 token2 : String)
    (now2 : Int) (inv2 : BudgetInvitation)
    (hcreate : (create_invitation db2 u2 bid2 email2 role2 token2 now2).1 = .ok inv2) :
    isForbidden (accept_invitation db u (get_user_email raw) token now).1 = false ∧
    inv2.invitee_email = (py_lower email2) := by
  constructor
  · have h1 : (inv.status == "accepted") = false := by simp [hst]
    have h2 : (inv.status == "cancelled") = false := by simp [hst]
    have hne : (get_user_email raw != inv.invitee_email) = false := by
      simp [get_user_email, hmatch]
    simp only [accept_invitation, hfind, h1, h2, hexp, hne, Bool.false_eq_true,
      if_false, ite_false]
    cases db.members.find? (fun m =>
        m.budget_id == inv.budget_id && m.user_id == u) <;> rfl
  · unfold create_invitation at hcreate
    split at hcreate
    · simp at hcreate
    · split at hcreate
      · simp at hcreate
      · split at hcreate
        · simp at hcreate
        · simp only [Except.ok.injEq] at hcreate
          subst hcreate
          rfl

/-- Witness for C6: `bob` accepts with verified claim "Bob@X.com" against
stored invitee "bob@x.com"; a fresh invitation for "Carol@X.com" is stored
lower-cased. -/
theorem accept_email_case_insensitive_witness :
    isForbidden (accept_invitation dbOwnerNoRow "bob" (get_user_email "Bob@X.com") "tok" 10).1 = false ∧
    ({ id := 2, budget_id := 1, inviter_id := "alice",
       invitee_email := "carol@x.com", token := "tk9", role := "editor",
       status := "pending", expires_at := 604810,
       accepted_at := none } : BudgetInvitation).invitee_email =
      (py_lower "Carol@X.com") :=
  accept_email_case_insensitive dbOwnerNoRow "bob" "Bob@X.com" "tok" 10
    { id := 1, budget_id := 1, inviter_id := "alice",
      invitee_email := "bob@x.com", token := "tok", role := "editor",
      status := "pending", expires_at := 100, accepted_at := none }
    (by decide) rfl (by decide) (by decide)
    dbOwnerNoRow "alice" 1 "Carol@X.com" "editor" "tk9" 10
    { id := 2, budget_id := 1, inviter_id := "alice",
      invitee_email := "carol@x.com", token := "tk9", role := "editor",
      status := "pending", expires_at := 604810, accepted_at := none }
    (by decide)

/-- C7: invitation-creation keeps at most one pending, non-expired
invitation per (budget, invitee_email) pair: it fails with the Conflict
error (status 400) exactly when such an invitation already exists, succeeds
otherwise by inserting a fresh `pending` invitation with
`expires_at = now + 7 days` and the lower-cased email, and preserves the
at-most-one-active invariant. -/
theorem invitation_pair_uniqueness
    (db : DB) (u : String) (bid : Int) (b : Budget)
    (email role token : String) (now : Int)
    (hb : db.budgets.find? (fun x => x.id == bid) = some b)
    (hauth : ((admin_member db bid u).isNone && (u != b.owner_id)) = false) :
    ((∃ i ∈ db.invitations, pending_unexpired bid (py_lower email) now i) →
      create_invitation db u bid email role token now =
        (.error ⟨400, "An active invitation already exists for this email"⟩, db)) ∧
    ((∀ i ∈ db.invitations, ¬ pending_unexpired bid (py_lower email) now i) →
      ∃ inv, create_invitation db u bid email role token now =
          (.ok inv, { db with invitations := db.invitations ++ [inv] }) ∧
        inv.status = "pending" ∧ inv.expires_at = now + seven_days ∧
        inv.invitee_email = (py_lower email) ∧ inv.budget_id = bid) ∧
    (at_most_one_active db now →
      at_most_one_active (create_invitation db u bid email role token now).2 now) := by
  refine ⟨?_, ?_, ?_⟩
  · intro hex
    obtain ⟨j, hj⟩ := Option.isSome_iff_exists.mp
      (List.find?_isSome.mpr (by simpa using hex))
    simp only [create_invitation, hb, hauth, Bool.false_eq_true, if_false,
      ite_false, hj]
  · intro hall
    have hnone : db.invitations.find? (pending_unexpired bid (py_lower email) now) = none :=
      List.find?_eq_none.mpr (by simpa using hall)
    simp only [create_invitation, hb, hauth, Bool.false_eq_true, if_false,
      ite_false, hnone]
    exact ⟨_, rfl, rfl, rfl, rfl, rfl⟩
  · intro hinv
    cases hfe : db.invitations.find? (pending_unexpired bid (py_lower email) now) with
    | some j =>
      simpa only [create_invitation, hb, hauth, Bool.false_eq_true, if_false,
        ite_false, hfe] using hinv
    | none =>
      simp only [create_invitation, hb, hauth, Bool.false_eq_true, if_false,
        ite_false, hfe]
      intro bid' email'
      rw [List.countP_append]
      by_cases hsame : (pending_unexpired bid' email' now
          { id := fresh_id (db.invitations.map (·.id))
            budget_id := bid
            inviter_id := u
            invitee_email := (py_lower email)
            token := token
            role := role
            status := "pending"
            expires_at := now + seven_days
            accepted_at := none }) = true
      · have hb' : bid = bid' ∧ py_lower email = email' := by
          simp only [pending_unexpired, Bool.and_eq_true, beq_iff_eq] at hsame
          exact ⟨hsame.1.1.1, hsame.1.1.2⟩
        rw [← hb'.1, ← hb'.2]
        have hzero : db.invitations.countP
            (pending_unexpired bid (py_lower email) now) = 0 := by
          apply List.countP_eq_zero.mpr
          intro a ha
          exact (List.find?_eq_none.mp hfe) a ha
        rw [hzero]
        rw [← hb'.1, ← hb'.2] at hsame
        simp [List.countP, List.countP.go, hsame]
      · have : (List.countP (pending_unexpired bid' email' now)
            [{ id := fresh_id (db.invitations.map (·.id))
               budget_id := bid
               inviter_id := u
               invitee_email := (py_lower email)
               token := token
               role := role
               status := "pending"
               expires_at := now + seven_days
               accepted_at := none }]) = 0 := by
          simp [List.countP, List.countP.go, hsame]
        rw [this]
        simpa using hinv bid' email'

/-- Witness for C7 on `dbOwnerNoRow` at time 10: re-inviting the pending
invitee fails with the Conflict error, inviting a fresh email succeeds, and
the invariant is preserved. -/
theorem invitation_pair_uniqueness_witness :
    create_invitation dbOwnerNoRow "alice" 1 "Bob@X.com" "editor" "t9" 10 =
      (.error ⟨400, "An active invitation already exists for this email"⟩,
       dbOwnerNoRow) ∧
    (∃ inv, create_invitation dbOwnerNoRow "alice" 1 "carol@x.com" "editor" "t9" 10 =
        (.ok inv, { dbOwnerNoRow with
          invitations := dbOwnerNoRow.invitations ++ [inv] }) ∧
      inv.status = "pending" ∧ inv.expires_at = 10 + seven_days ∧
      inv.invitee_email = (py_lower "carol@x.com") ∧ inv.budget_id = 1) ∧
    at_most_one_active
      (create_invitation dbOwnerNoRow "alice" 1 "carol@x.com" "editor" "t9" 10).2 10 :=
  ⟨(invitation_pair_uniqueness dbOwnerNoRow "alice" 1
      { id := 1, name := "Family", owner_id := "alice" } "Bob@X.com" "editor"
      "t9" 10 (by decide) (by decide)).1
    ⟨{ id := 1, budget_id := 1, inviter_id := "alice",
       invitee_email := "bob@x.com", token := "tok", role := "editor",
       status := "pending", expires_at := 100, accepted_at := none },
     by decide, by decide⟩,
   (invitation_pair_uniqueness dbOwnerNoRow "alice" 1
      { id := 1, name := "Family", owner_id := "alice" } "carol@x.com" "editor"
      "t9" 10 (by decide) (by decide)).2.1 (by decide),
   (invitation_pair_uniqueness dbOwnerNoRow "alice" 1
      { id := 1, name := "Family", owner_id := "alice" } "carol@x.com" "editor"
      "t9" 10 (by decide) (by decide)).2.2
    (by
      intro bid email_lc
      exact le_trans (List.countP_le_length _) (by decide))⟩

/-- C8 counterexample: a failing operation can change the persistent
state.  On `dbExpired`, the accept attempt at time 10 fails (410 Gone) yet
the returned store differs from the input store (the invitation's status
was flipped and committed before the raise). -/
theorem failing_accept_mutates_store :
    (accept_invitation dbExpired "bob" "bob@x.com" "tok" 10).1 =
      .error ⟨410, "Invitation has expired"⟩ ∧
    (accept_invitation dbExpired "bob" "bob@x.com" "tok" 10).2 ≠ dbExpired := by
  decide

/-- C8 amended: every operation other than accept-invitation leaves the
store entirely unchanged when it fails; a failing accept-invitation never
inserts a membership and touches no table other than `invitations` (the
lazy expired flip and the already-member consumption are the only
error-path mutations in the system). -/
theorem failing_ops_leave_store_unchanged_except_accept
    (db : DB) (u uadd email role token : String)
    (bid iid cid sid tid : Int) (now : Int)
    (new_name nn sf : Option String) (nb na namt ndt : Option Int)
    (name : String) (aval amt dt : Int) :
    (∀ e, (update_budget db u bid new_name).1 = .error e →
      (update_budget db u bid new_name).2 = db) ∧
    (∀ e, (delete_budget db u bid).1 = .error e →
      (delete_budget db u bid).2 = db) ∧
    (∀ e, (add_member db u bid uadd).1 = .error e →
      (add_member db u bid uadd).2 = db) ∧
    (∀ e, (create_invitation db u bid email role token now).1 = .error e →
      (create_invitation db u bid email role token now).2 = db) ∧
    (∀ e, (list_invitations db u bid sf).1 = .error e →
      (list_invitations db u bid sf).2 = db) ∧
    (∀ e, (cancel_invitation db u iid).1 = .error e →
      (cancel_invitation db u iid).2 = db) ∧
    (∀ e, (validate_invitation db token now).1 = .error e →
      (validate_invitation db token now).2 = db) ∧
    (∀ e, (create_subcategory db bid cid name aval).1 = .error e →
      (create_subcategory db bid cid name aval).2 = db) ∧
    (∀ e, (create_transaction db bid sid name amt dt).1 = .error e →
      (create_transaction db bid sid name amt dt).2 = db) ∧
    (∀ e, (update_category db bid cid nb nn).1 = .error e →
      (update_category db bid cid nb nn).2 = db) ∧
    (∀ e, (delete_category db bid cid).1 = .error e →
      (delete_category db bid cid).2 = db) ∧
    (∀ e, (update_subcategory db bid sid na nn).1 = .error e →
      (update_subcategory db bid sid na nn).2 = db) ∧
    (∀ e, (delete_subcategory db bid sid).1 = .error e →
      (delete_subcategory db bid sid).2 = db) ∧
    (∀ e, (update_transaction db bid tid nn namt ndt).1 = .error e →
      (update_transaction db bid tid nn namt ndt).2 = db) ∧
    (∀ e, (delete_transaction db bid tid).1 = .error e →
      (delete_transaction db bid tid).2 = db) ∧
    (∀ e, (accept_invitation db u email token now).1 = .error e →
      (accept_invitation db u email token now).2.members = db.members ∧
      (accept_invitation db u email token now).2.budgets = db.budgets ∧
      (accept_invitation db u email token now).2.categories = db.categories ∧
      (accept_invitation db u email token now).2.subcategories = db.subcategories ∧
      (accept_invitation db u email token now).2.transactions = db.transactions) := by
  refine ⟨?_, ?_, ?_, ?_, ?_, ?_, ?_, ?_, ?_, ?_, ?_, ?_, ?_, ?_, ?_, ?_⟩
  · intro e
    unfold update_budget
    repeat' split
    all_goals simp
  · intro e
    unfold delete_budget
    repeat' split
    all_goals simp
  · intro e
    unfold add_member
    repeat' split
    all_goals simp
  · intro e
    unfold create_invitation
    repeat' split
    all_goals simp
  · intro e
    unfold list_invitations
    repeat' split
    all_goals simp
  · intro e
    unfold cancel_invitation
    repeat' split
    all_goals simp
  · intro e
    unfold validate_invitation
    repeat' split
    all_goals simp
  · intro e
    unfold create_subcategory
    repeat' split
    all_goals simp
  · intro e
    unfold create_transaction
    repeat' split
    all_goals simp
  · intro e
    unfold update_category
    repeat' split
    all_goals simp
  · intro e
    unfold delete_category
    repeat' split
    all_goals simp
  · intro e
    unfold update_subcategory
    repeat' split
    all_goals simp
  · intro e
    unfold delete_subcategory
    repeat' split
    all_goals simp
  · intro e
    unfold update_transaction
    repeat' split
    all_goals simp
  · intro e
    unfold delete_transaction
    repeat' split
    all_goals simp
  · intro e
    unfold accept_invitation
    repeat' split
    all_goals intro h
    all_goals first
      | exact ⟨rfl, rfl, rfl, rfl, rfl⟩
      | simp at h

/-- Witness for the amended C8: on `dbExpired` with nonexistent target ids
every operation fails and returns the store unchanged, and the failing
accept at time 10 leaves every table but `invitations` unchanged. -/
theorem failing_ops_leave_store_unchanged_except_accept_witness :
    (update_budget dbExpired "mallory" 99 none).2 = dbExpired ∧
    (delete_budget dbExpired "mallory" 99).2 = dbExpired ∧
    (add_member dbExpired "mallory" 99 "x").2 = dbExpired ∧
    (create_invitation dbExpired "mallory" 99 "e@x.com" "editor" "tok" 10).2 = dbExpired ∧
    (list_invitations dbExpired "mallory" 99 none).2 = dbExpired ∧
    (cancel_invitation dbExpired "mallory" 99).2 = dbExpired ∧
    (validate_invitation dbExpired "tok" 10).2 = dbExpired ∧
    (create_subcategory dbExpired 99 99 "n" 0).2 = dbExpired ∧
    (create_transaction dbExpired 99 99 "n" 0 0).2 = dbExpired ∧
    (update_category dbExpired 99 99 none none).2 = dbExpired ∧
    (delete_category dbExpired 99 99).2 = dbExpired ∧
    (update_subcategory dbExpired 99 99 none none).2 = dbExpired ∧
    (delete_subcategory dbExpired 99 99).2 = dbExpired ∧
    (update_transaction dbExpired 99 99 none none none).2 = dbExpired ∧
    (delete_transaction dbExpired 99 99).2 = dbExpired ∧
    ((accept_invitation dbExpired "mallory" "e@x.com" "tok" 10).2.members =
        dbExpired.members ∧
      (accept_invitation dbExpired "mallory" "e@x.com" "tok" 10).2.budgets =
        dbExpired.budgets) := by
  have H := failing_ops_leave_store_unchanged_except_accept dbExpired
    "mallory" "x" "e@x.com" "editor" "tok" 99 99 99 99 99 10
    none none none none none none none "n" 0 0 0
  refine ⟨H.1 ⟨404, "Budget not found"⟩ (by decide),
    H.2.1 ⟨404, "Budget not found"⟩ (by decide),
    H.2.2.1 ⟨404, "Budget not found"⟩ (by decide),
    H.2.2.2.1 ⟨404, "Budget not found"⟩ (by decide),
    H.2.2.2.2.1 ⟨404, "Budget not found"⟩ (by decide),
    H.2.2.2.2.2.1 ⟨404, "Invitation not found"⟩ (by decide),
    H.2.2.2.2.2.2.1 ⟨410, "Invitation has expired"⟩ (by decide),
    H.2.2.2.2.2.2.2.1 ⟨404, "Category not found"⟩ (by decide),
    H.2.2.2.2.2.2.2.2.1 ⟨404, "Subcategory not found"⟩ (by decide),
    H.2.2.2.2.2.2.2.2.2.1 ⟨404, "Category not found"⟩ (by decide),
    H.2.2.2.2.2.2.2.2.2.2.1 ⟨404, "Category not found"⟩ (by decide),
    H.2.2.2.2.2.2.2.2.2.2.2.1 ⟨404, "Subcategory not found"⟩ (by decide),
    H.2.2.2.2.2.2.2.2.2.2.2.2.1 ⟨404, "Subcategory not found"⟩ (by decide),
    H.2.2.2.2.2.2.2.2.2.2.2.2.2.1 ⟨404, "Transaction not found"⟩ (by decide),
    H.2.2.2.2.2.2.2.2.2.2.2.2.2.2.1 ⟨404, "Transaction not found"⟩ (by decide),
    ?_⟩
  have HA := H.2.2.2.2.2.2.2.2.2.2.2.2.2.2.2
    ⟨410, "Invitation has expired"⟩ (by decide)
  exact ⟨HA.1, HA.2.1⟩

/-- C9: for every mutation on a Category, Subcategory or Transaction
(create under a parent, update, delete), when the target entity exists but
its ownership chain does not terminate at the caller's budget context, the
operation fails with 404 NotFound (never 403) and the store is unchanged. -/
theorem cross_budget_mutation_is_not_found
    (db : DB) (bid : Int) (cid sid tid : Int)
    (hcex : (db.categories.find? (fun c => c.id == cid)).isSome)
    (hcno : db.categories.find? (fun c =>
        c.id == cid && c.budget_id == bid) = none)
    (hsex : (db.subcategories.find? (fun s => s.id == sid)).isSome)
    (hsno : db.subcategories.find? (fun s =>
        s.id == sid && sub_in_budget db s bid) = none)
    (htex : (db.transactions.find? (fun t => t.id == tid)).isSome)
    (htno : db.transactions.find? (fun t =>
        t.id == tid && txn_in_budget db t bid) = none)
    (name : String) (aval amt dt : Int)
    (nb na namt ndt : Option Int) (nn : Option String) :
    create_subcategory db bid cid name aval =
      (.error ⟨404, "Category not found"⟩, db) ∧
    update_category db bid cid nb nn =
      (.error ⟨404, "Category not found"⟩, db) ∧
    delete_category db bid cid =
      (.error ⟨404, "Category not found"⟩, db) ∧
    create_transaction db bid sid name amt dt =
      (.error ⟨404, "Subcategory not found"⟩, db) ∧
    update_subcategory db bid sid na nn =
      (.error ⟨404, "Subcategory not found"⟩, db) ∧
    delete_subcategory db bid sid =
      (.error ⟨404, "Subcategory not found"⟩, db) ∧
    update_transaction db bid tid nn namt ndt =
      (.error ⟨404, "Transaction not found"⟩, db) ∧
    delete_transaction db bid tid =
      (.error ⟨404, "Transaction not found"⟩, db) := by
  refine ⟨?_, ?_, ?_, ?_, ?_, ?_, ?_, ?_⟩
  · simp only [create_subcategory, hcno]
  · simp only [update_category, hcno]
  · simp only [delete_category, hcno]
  · simp only [create_transaction, hsno]
  · simp only [update_subcategory, hsno]
  · simp only [delete_subcategory, hsno]
  · simp only [update_transaction, htno]
  · simp only [delete_transaction, htno]

/-- Witness for C9 on `dbCross`: category 10, subcategory 20 and
transaction 30 exist but chain to budget 2, while the caller's context is
budget 1. -/
theorem cross_budget_mutation_is_not_found_witness :
    create_subcategory dbCross 1 10 "n" 0 =
      (.error ⟨404, "Category not found"⟩, dbCross) ∧
    update_category dbCross 1 10 none none =
      (.error ⟨404, "Category not found"⟩, dbCross) ∧
    delete_category dbCross 1 10 =
      (.error ⟨404, "Category not found"⟩, dbCross) ∧
    create_transaction dbCross 1 20 "n" 0 0 =
      (.error ⟨404, "Subcategory not found"⟩, dbCross) ∧
    update_subcategory dbCross 1 20 none none =
      (.error ⟨404, "Subcategory not found"⟩, dbCross) ∧
    delete_subcategory dbCross 1 20 =
      (.error ⟨404, "Subcategory not found"⟩, dbCross) ∧
    update_transaction dbCross 1 30 none none none =
      (.error ⟨404, "Transaction not found"⟩, dbCross) ∧
    delete_transaction dbCross 1 30 =
      (.error ⟨404, "Transaction not found"⟩, dbCross) :=
  cross_budget_mutation_is_not_found dbCross 1 10 20 30
    (by decide) (by decide) (by decide) (by decide) (by decide) (by decide)
    "n" 0 0 0 none none none none none

/-- C10: a successful direct member addition always inserts the row with
role `"editor"`: `add_member` takes no role parameter (its signature admits
only the user id to add), and when it returns a member it is appended to
the member table with role `"editor"`. -/
theorem add_member_inserts_editor_role
    (db : DB) (u : String) (bid : Int) (uadd : String) (m : BudgetMember)
    (h : (add_member db u bid uadd).1 = .ok m) :
    m.role = "editor" ∧
    (add_member db u bid uadd).2.members = db.members ++ [m] := by
  rcases hfb : db.budgets.find? (fun b => b.id == bid) with _ | b
  · simp only [add_member, hfb] at h
    simp at h
  · by_cases hc : ((admin_member db bid u).isNone && (u != b.owner_id)) = true
    · simp only [add_member, hfb, hc, if_true, ite_true] at h
      simp at h
    · simp only [Bool.not_eq_true] at hc
      rcases hfm : db.members.find? (fun x =>
          x.budget_id == bid && x.user_id == uadd) with _ | mm
      · simp only [add_member, hfb, hc, Bool.false_eq_true, if_false,
          ite_false, hfm] at h ⊢
        simp only [Except.ok.injEq] at h
        subst h
        exact ⟨rfl, rfl⟩
      · simp only [add_member, hfb, hc, Bool.false_eq_true, if_false,
          ite_false, hfm] at h
        simp at h

/-- Witness for C10: owner `alice` adds `bob` to budget 1. -/
theorem add_member_inserts_editor_role_witness :
    ({ id := 1, budget_id := 1, user_id := "bob",
       role := "editor" } : BudgetMember).role = "editor" ∧
    (add_member dbOwnerNoRow "alice" 1 "bob").2.members =
      dbOwnerNoRow.members ++
        [{ id := 1, budget_id := 1, user_id := "bob", role := "editor" }] :=
  add_member_inserts_editor_role dbOwnerNoRow "alice" 1 "bob"
    { id := 1, budget_id := 1, user_id := "bob", role := "editor" }
    (by decide)

end SimpleBudget
